import Mathlib

/-!
Verification of the typed public surface of the theme-ui components package
(`packages/components/index.d.ts`).

The declaration file is embedded shallowly:

* A TypeScript object/record type is a `Shape`: an association list from
  field names to a `FieldInfo` (the field's type and whether it is optional).
  Lookup is first-match, which models member overriding in interface
  extension (`fields ++ base`).
* The TypeScript types appearing in the file are embedded as the small
  syntax `Ty`; external named types (React handlers, emotion interpolation,
  theme-ui style objects, ...) are opaque `Ty.named` atoms.
* The file's type operators are embedded as functions on `Shape`:
  `Omit<T, K>` as `omitKeys`, `Assign<T, U>` (the mapped type with its
  conditional `never` fallback) as `assignS`, intersection `&` as `interS`
  and interface extension as `extendI`.
* Runtime values are the inductive `Value`; `hasTy` is the (structural)
  typing judgement, `SatFields v S` says the value `v` typechecks against
  the record type `S`, and `Sat v S` says `v` is a value of type `S`
  (its fields are exactly drawn from `S`'s fields).

The native host-element attribute sets (`React.ComponentPropsWithRef<'div'>`
and friends) and the styled-system shapes (`SpaceProps`, `ColorProps`,
`MarginProps`) are external to the repository; they are modelled below as
concrete all-optional shapes containing the attributes relevant to the
components file (in particular the colliding names `color`, `opacity`,
`min`, `max`, `children`, `name`, `value`).
-/

set_option maxRecDepth 8000

namespace ThemeUI

/-- Embedded syntax of the TypeScript types used by the declaration file.
External named types are opaque atoms. -/
inductive Ty where
  | str : Ty
  | num : Ty
  | boolTy : Ty
  | undef : Ty
  | never : Ty
  | union : Ty → Ty → Ty
  | inter : Ty → Ty → Ty
  | named : String → Ty
deriving DecidableEq

/-- Modelled from the spec: a responsive value "may vary by breakpoint
(scalar, array, or keyed object)"; the non-scalar alternatives are one
opaque atom. -/
def responsive (t : Ty) : Ty := .union t (.named "ResponsiveCollection")

/-- One record member: its type and whether it is optional (`?`). -/
structure FieldInfo where
  ty : Ty
  optional : Bool
deriving DecidableEq

/-- A TypeScript object type: association list from member names to members.
Lookup is first-match, so earlier entries override later ones. -/
abbrev Shape := List (String × FieldInfo)

/-- First-match association-list lookup. -/
def look {β : Type} : List (String × β) → String → Option β
  | [], _ => none
  | (m, b) :: rest, n => if n = m then some b else look rest n

/-- The names of an association list, in order. -/
def keyList {β : Type} (l : List (String × β)) : List String := l.map Prod.fst

/-- Embedded runtime values (enough to separate the types in `Ty`). -/
inductive Value where
  | vstr : String → Value
  | vnum : Int → Value
  | vbool : Bool → Value
  | vundef : Value
  | vnamed : String → Value
deriving DecidableEq

/-- A runtime object: association list from field names to values. -/
abbrev Val := List (String × Value)

/-- Structural typing judgement for `Value` against `Ty`. -/
def hasTy : Value → Ty → Bool
  | v, .union a b => hasTy v a || hasTy v b
  | v, .inter a b => hasTy v a && hasTy v b
  | .vstr _, .str => true
  | .vnum _, .num => true
  | .vbool _, .boolTy => true
  | .vundef, .undef => true
  | .vnamed s, .named t => decide (s = t)
  | _, _ => false

/-- Syntactic subtype check against a union target, for non-union sources. -/
def tyInclAtom (a : Ty) : Ty → Bool
  | .union b1 b2 => tyInclAtom a b1 || tyInclAtom a b2
  | b => decide (a = b)

/-- Syntactic subtype check: `tyIncl a b = true` implies every value of
type `a` also has type `b` (`tyIncl_sound`). -/
def tyIncl : Ty → Ty → Bool
  | .never, _ => true
  | .union a1 a2, b => tyIncl a1 b && tyIncl a2 b
  | a, b => tyInclAtom a b

/-- `Omit<T, K> = Pick<T, Exclude<keyof T, K>>` from the declaration file:
drop the members whose name is listed in `K`. -/
def omitKeys (S : Shape) (K : List String) : Shape :=
  match S with
  | [] => []
  | (m, f) :: t => if m ∈ K then omitKeys t K else (m, f) :: omitKeys t K

/-- The member that `Assign<T, U>` gives to the name `n`: `T[n]` when
`n extends keyof T`, else `U[n]` when `n extends keyof U`, else `never`;
the optionality modifier comes homomorphically from `T & U`. -/
def assignField (T U : Shape) (n : String) : FieldInfo :=
  { ty :=
      match look T n with
      | some f => f.ty
      | none =>
        match look U n with
        | some g => g.ty
        | none => Ty.never
    optional :=
      match look T n, look U n with
      | some f, some g => f.optional && g.optional
      | some f, none => f.optional
      | none, some g => g.optional
      | none, none => true }

/-- `Assign<T, U>` from the declaration file: a mapped type over
`keyof (T & U)` whose member at `P` is `assignField`. -/
def assignS (T U : Shape) : Shape :=
  (keyList T ++ keyList U).dedup.map fun n => (n, assignField T U n)

/-- Member of an intersection type at a name both sides declare. -/
def interField (T : Shape) (m : String) (f : FieldInfo) : FieldInfo :=
  match look T m with
  | some g => ⟨.inter f.ty g.ty, f.optional && g.optional⟩
  | none => f

/-- Intersection `S & T` of two object types. -/
def interS (S T : Shape) : Shape :=
  (S.map fun p => (p.1, interField T p.1 p.2)) ++ omitKeys T (keyList S)

/-- `interface X extends Base { fields }`: the declared members override
the inherited ones. -/
def extendI (base : Shape) (fields : Shape) : Shape := fields ++ base

/-- `v` typechecks against the object type `S`: every member of `S` that is
required is present in `v` with a value of the member's type, and every
member of `S` that `v` supplies has a value of the member's type.  Names
not declared by `S` are unconstrained (width subtyping). -/
def SatFields (v : Val) (S : Shape) : Bool :=
  (keyList S).all fun n =>
    match look S n, look v n with
    | some f, some w => hasTy w f.ty
    | some f, none => f.optional
    | none, _ => true

/-- Every name of `S` is declared by `T`. -/
def keysSub {β γ : Type} (S : List (String × β)) (T : List (String × γ)) : Bool :=
  (keyList S).all fun n => (look T n).isSome

/-- `v` is a value of the object type `S`: it typechecks against `S` and
supplies only fields that `S` declares. -/
def Sat (v : Val) (S : Shape) : Bool := SatFields v S && keysSub v S

/-- Record-type assignability: a value of type `S` typechecks against `T`.
For every member of `T`: if `S` declares the name, `S`'s member type must be
included in `T`'s and a required `T` member needs a required `S` member;
if `S` does not declare the name, `T`'s member must be optional. -/
def subShape (S T : Shape) : Bool :=
  (keyList T).all fun n =>
    match look T n, look S n with
    | some f, some g => (!g.optional || f.optional) && tyIncl g.ty f.ty
    | some f, none => f.optional
    | none, _ => true

/-! ## External shapes (React and styled-system), modelled -/

/-- Modelled from the spec: the common HTML attribute set shared by the
`React.ComponentPropsWithRef<...>` host-element types (all optional). -/
def htmlAttrs : Shape := [
  ("children", ⟨.named "ReactNode", true⟩),
  ("className", ⟨.str, true⟩),
  ("id", ⟨.str, true⟩),
  ("style", ⟨.named "CSSProperties", true⟩),
  ("title", ⟨.str, true⟩),
  ("hidden", ⟨.boolTy, true⟩),
  ("tabIndex", ⟨.num, true⟩),
  ("role", ⟨.str, true⟩),
  ("onClick", ⟨.named "MouseEventHandler", true⟩),
  ("ref", ⟨.named "Ref", true⟩)]

/-- Modelled from the spec: `React.ComponentPropsWithRef<'div'>` (also used
for `'p'` and `'h2'`, whose extra attributes play no role here). -/
def divAttrs : Shape := htmlAttrs

/-- Modelled from the spec: `React.ComponentPropsWithRef<'button'>`. -/
def buttonAttrs : Shape := [
  ("autoFocus", ⟨.boolTy, true⟩),
  ("disabled", ⟨.boolTy, true⟩),
  ("form", ⟨.str, true⟩),
  ("name", ⟨.str, true⟩),
  ("type", ⟨.str, true⟩),
  ("value", ⟨.union .str (.union .num (.named "StringArray")), true⟩)] ++ htmlAttrs

/-- Modelled from the spec: `React.ComponentPropsWithRef<'a'>`. -/
def anchorAttrs : Shape := [
  ("href", ⟨.str, true⟩),
  ("target", ⟨.str, true⟩),
  ("rel", ⟨.str, true⟩),
  ("download", ⟨.named "Any", true⟩)] ++ htmlAttrs

/-- Modelled from the spec: `React.ComponentPropsWithRef<'img'>`. -/
def imgAttrs : Shape := [
  ("src", ⟨.str, true⟩),
  ("alt", ⟨.str, true⟩),
  ("width", ⟨.union .num .str, true⟩),
  ("height", ⟨.union .num .str, true⟩)] ++ htmlAttrs

/-- Modelled from the spec: `React.ComponentPropsWithRef<'label'>`. -/
def labelAttrs : Shape := [
  ("htmlFor", ⟨.str, true⟩),
  ("form", ⟨.str, true⟩)] ++ htmlAttrs

/-- Modelled from the spec: `React.ComponentPropsWithRef<'input'>`. -/
def inputAttrs : Shape := [
  ("name", ⟨.str, true⟩),
  ("value", ⟨.union .str (.union .num (.named "StringArray")), true⟩),
  ("type", ⟨.str, true⟩),
  ("checked", ⟨.boolTy, true⟩),
  ("disabled", ⟨.boolTy, true⟩),
  ("min", ⟨.union .num .str, true⟩),
  ("max", ⟨.union .num .str, true⟩),
  ("size", ⟨.num, true⟩),
  ("placeholder", ⟨.str, true⟩),
  ("onChange", ⟨.named "ChangeEventHandler", true⟩)] ++ htmlAttrs

/-- Modelled from the spec: `React.ComponentPropsWithRef<'select'>`. -/
def selectAttrs : Shape := [
  ("name", ⟨.str, true⟩),
  ("value", ⟨.union .str (.union .num (.named "StringArray")), true⟩),
  ("multiple", ⟨.boolTy, true⟩),
  ("disabled", ⟨.boolTy, true⟩)] ++ htmlAttrs

/-- Modelled from the spec: `React.ComponentPropsWithRef<'textarea'>`. -/
def textareaAttrs : Shape := [
  ("name", ⟨.str, true⟩),
  ("value", ⟨.union .str (.union .num (.named "StringArray")), true⟩),
  ("rows", ⟨.num, true⟩),
  ("cols", ⟨.num, true⟩),
  ("placeholder", ⟨.str, true⟩)] ++ htmlAttrs

/-- Modelled from the spec: `React.ComponentPropsWithRef<'progress'>`. -/
def progressAttrs : Shape := [
  ("value", ⟨.union .str (.union .num (.named "StringArray")), true⟩),
  ("max", ⟨.union .num .str, true⟩)] ++ htmlAttrs

/-- Modelled from the spec: `React.ComponentPropsWithRef<'iframe'>`. -/
def iframeAttrs : Shape := [
  ("src", ⟨.str, true⟩),
  ("frameBorder", ⟨.union .num .str, true⟩),
  ("allowFullScreen", ⟨.boolTy, true⟩),
  ("allow", ⟨.str, true⟩),
  ("width", ⟨.union .num .str, true⟩),
  ("height", ⟨.union .num .str, true⟩)] ++ htmlAttrs

/-- Modelled from the spec: `React.ComponentPropsWithRef<'svg'>`; the SVG
attribute set declares `color`, `opacity`, `min` and `max`, the names the
chart components exclude. -/
def svgAttrs : Shape := [
  ("color", ⟨.str, true⟩),
  ("opacity", ⟨.union .num .str, true⟩),
  ("min", ⟨.union .num .str, true⟩),
  ("max", ⟨.union .num .str, true⟩),
  ("width", ⟨.union .num .str, true⟩),
  ("height", ⟨.union .num .str, true⟩),
  ("viewBox", ⟨.str, true⟩),
  ("fill", ⟨.str, true⟩),
  ("stroke", ⟨.str, true⟩),
  ("children", ⟨.named "ReactNode", true⟩),
  ("className", ⟨.str, true⟩),
  ("id", ⟨.str, true⟩),
  ("style", ⟨.named "CSSProperties", true⟩),
  ("tabIndex", ⟨.num, true⟩),
  ("role", ⟨.str, true⟩),
  ("onClick", ⟨.named "MouseEventHandler", true⟩),
  ("ref", ⟨.named "Ref", true⟩)]

/-- Modelled from the spec: styled-system's margin fields (the `MarginProps`
half of `SpaceProps`), all optional responsive length values. -/
def marginFields : Shape := [
  ("m", ⟨responsive (.union .num .str), true⟩),
  ("margin", ⟨responsive (.union .num .str), true⟩),
  ("mt", ⟨responsive (.union .num .str), true⟩),
  ("marginTop", ⟨responsive (.union .num .str), true⟩),
  ("mr", ⟨responsive (.union .num .str), true⟩),
  ("marginRight", ⟨responsive (.union .num .str), true⟩),
  ("mb", ⟨responsive (.union .num .str), true⟩),
  ("marginBottom", ⟨responsive (.union .num .str), true⟩),
  ("ml", ⟨responsive (.union .num .str), true⟩),
  ("marginLeft", ⟨responsive (.union .num .str), true⟩),
  ("mx", ⟨responsive (.union .num .str), true⟩),
  ("marginX", ⟨responsive (.union .num .str), true⟩),
  ("my", ⟨responsive (.union .num .str), true⟩),
  ("marginY", ⟨responsive (.union .num .str), true⟩)]

/-- Modelled from the spec: styled-system's padding fields (the
`PaddingProps` half of `SpaceProps`). -/
def paddingFields : Shape := [
  ("p", ⟨responsive (.union .num .str), true⟩),
  ("padding", ⟨responsive (.union .num .str), true⟩),
  ("pt", ⟨responsive (.union .num .str), true⟩),
  ("paddingTop", ⟨responsive (.union .num .str), true⟩),
  ("pr", ⟨responsive (.union .num .str), true⟩),
  ("paddingRight", ⟨responsive (.union .num .str), true⟩),
  ("pb", ⟨responsive (.union .num .str), true⟩),
  ("paddingBottom", ⟨responsive (.union .num .str), true⟩),
  ("pl", ⟨responsive (.union .num .str), true⟩),
  ("paddingLeft", ⟨responsive (.union .num .str), true⟩),
  ("px", ⟨responsive (.union .num .str), true⟩),
  ("paddingX", ⟨responsive (.union .num .str), true⟩),
  ("py", ⟨responsive (.union .num .str), true⟩)]

/-- Modelled from the spec: styled-system `SpaceProps`
(= `MarginProps & PaddingProps`): the margin fields are shared with
`MarginProps` by construction. -/
def spaceProps : Shape := marginFields ++ paddingFields

/-- Modelled from the spec: styled-system `MarginProps`. -/
def marginProps : Shape := marginFields

/-- Modelled from the spec: styled-system `ColorProps`, all optional
theme-aware responsive values. -/
def colorProps : Shape := [
  ("color", ⟨responsive (.union .str .num), true⟩),
  ("bg", ⟨responsive (.union .str .num), true⟩),
  ("backgroundColor", ⟨responsive (.union .str .num), true⟩),
  ("opacity", ⟨responsive (.union .num .str), true⟩)]

/-! ## The declaration file's own shapes -/

/-- `interface BoxOwnProps extends SpaceProps, ColorProps
{ as?; variant?; css?; sx? }`. -/
def boxOwnProps : Shape :=
  [("as", ⟨.named "ElementType", true⟩),
   ("variant", ⟨.str, true⟩),
   ("css", ⟨.named "Interpolation", true⟩),
   ("sx", ⟨.named "ThemeUIStyleObject", true⟩)] ++ spaceProps ++ colorProps

/-- `interface BoxProps extends Assign<React.ComponentPropsWithRef<'div'>,
BoxOwnProps> {}`. -/
def boxProps : Shape := assignS divAttrs boxOwnProps

/-- `type FlexProps = BoxProps`. -/
def flexProps : Shape := boxProps

/-- `interface GridProps extends BoxProps { width?; columns?; gap?;
repeat? }`. -/
def gridProps : Shape := extendI boxProps
  [("width", ⟨responsive (.union .str .num), true⟩),
   ("columns", ⟨responsive (.union .str .num), true⟩),
   ("gap", ⟨responsive (.union .str .num), true⟩),
   ("repeat", ⟨.union (.named "fit") (.named "fill"), true⟩)]

/-- `interface ButtonProps extends Assign<React.ComponentPropsWithRef<
'button'>, BoxOwnProps> {}`. -/
def buttonProps : Shape := assignS buttonAttrs boxOwnProps

/-- `interface LinkProps extends Assign<React.ComponentPropsWithRef<'a'>,
BoxOwnProps> {}`. -/
def linkProps : Shape := assignS anchorAttrs boxOwnProps

/-- `type TextProps = BoxProps`. -/
def textProps : Shape := boxProps

/-- `interface ParagraphProps extends Assign<React.ComponentPropsWithRef<
'p'>, BoxOwnProps> {}`. -/
def paragraphProps : Shape := assignS divAttrs boxOwnProps

/-- `interface HeadingProps extends Assign<React.ComponentPropsWithRef<
'h2'>, BoxOwnProps> {}`. -/
def headingProps : Shape := assignS divAttrs boxOwnProps

/-- `interface ImageProps extends Assign<React.ComponentPropsWithRef<'img'>,
BoxOwnProps> {}`. -/
def imageProps : Shape := assignS imgAttrs boxOwnProps

/-- `type CardProps = BoxProps`. -/
def cardProps : Shape := boxProps

/-- `interface LabelProps extends Assign<React.ComponentPropsWithRef<
'label'>, BoxOwnProps> {}`. -/
def labelProps : Shape := assignS labelAttrs boxOwnProps

/-- `interface InputProps extends Assign<React.ComponentPropsWithRef<
'input'>, BoxOwnProps> {}`. -/
def inputProps : Shape := assignS inputAttrs boxOwnProps

/-- `interface SelectProps extends Assign<React.ComponentPropsWithRef<
'select'>, BoxOwnProps> { arrow? }`. -/
def selectProps : Shape := extendI (assignS selectAttrs boxOwnProps)
  [("arrow", ⟨.named "ReactElement", true⟩)]

/-- `interface TextareaProps extends Assign<React.ComponentPropsWithRef<
'textarea'>, BoxOwnProps> {}`. -/
def textareaProps : Shape := assignS textareaAttrs boxOwnProps

/-- `interface RadioProps extends Assign<React.ComponentPropsWithRef<
'input'>, BoxOwnProps> {}`. -/
def radioProps : Shape := assignS inputAttrs boxOwnProps

/-- `interface CheckboxProps extends Assign<React.ComponentPropsWithRef<
'input'>, BoxOwnProps> {}`. -/
def checkboxProps : Shape := assignS inputAttrs boxOwnProps

/-- `interface SliderProps extends Assign<React.ComponentPropsWithRef<
'input'>, BoxOwnProps> {}`. -/
def sliderProps : Shape := assignS inputAttrs boxOwnProps

/-- `interface ProgressProps extends Assign<React.ComponentPropsWithRef<
'progress'>, BoxOwnProps> {}`. -/
def progressProps : Shape := assignS progressAttrs boxOwnProps

/-- Donut's exclusion list, in source order:
`Omit<React.ComponentPropsWithRef<'svg'>,
'opacity' | 'color' | 'css' | 'sx' | 'max' | 'min'>`. -/
def donutExclusions : List String := ["opacity", "color", "css", "sx", "max", "min"]

/-- `interface DonutProps extends Assign<Omit<..svg.., donutExclusions>,
BoxOwnProps> { value: number; min?; max?; title?; size? }`. -/
def donutProps : Shape :=
  extendI (assignS (omitKeys svgAttrs donutExclusions) boxOwnProps)
    [("value", ⟨.num, false⟩),
     ("min", ⟨.num, true⟩),
     ("max", ⟨.num, true⟩),
     ("title", ⟨.str, true⟩),
     ("size", ⟨.union .str .num, true⟩)]

/-- Spinner's exclusion list, in source order:
`Omit<React.ComponentPropsWithRef<'svg'>,
'opacity' | 'color' | 'css' | 'sx'>`. -/
def spinnerExclusions : List String := ["opacity", "color", "css", "sx"]

/-- `interface SpinnerProps extends Assign<Omit<..svg.., spinnerExclusions>,
BoxOwnProps> { size? }`. -/
def spinnerProps : Shape :=
  extendI (assignS (omitKeys svgAttrs spinnerExclusions) boxOwnProps)
    [("size", ⟨.union .num .str, true⟩)]

/-- `interface AvatarProps extends ImageProps { size? }`. -/
def avatarProps : Shape := extendI imageProps [("size", ⟨.union .num .str, true⟩)]

/-- `type BadgeProps = BoxProps`. -/
def badgeProps : Shape := boxProps

/-- `interface IconButtonProps extends Assign<React.ComponentPropsWithRef<
'button'>, BoxOwnProps> { size? }`. -/
def iconButtonProps : Shape := extendI (assignS buttonAttrs boxOwnProps)
  [("size", ⟨.union .num .str, true⟩)]

/-- `interface CloseProps extends Omit<IconButtonProps, 'children'> {}`. -/
def closeProps : Shape := omitKeys iconButtonProps ["children"]

/-- `type AlertProps = BoxProps`. -/
def alertProps : Shape := boxProps

/-- `type DividerProps = BoxProps`. -/
def dividerProps : Shape := boxProps

/-- `interface EmbedProps extends Assign<React.ComponentPropsWithRef<
'iframe'>, BoxOwnProps> { variant?; ratio?; src?; frameBorder?;
allowFullScreen?; allow? }`. -/
def embedProps : Shape := extendI (assignS iframeAttrs boxOwnProps)
  [("variant", ⟨.str, true⟩),
   ("ratio", ⟨.num, true⟩),
   ("src", ⟨.str, true⟩),
   ("frameBorder", ⟨.union .num .str, true⟩),
   ("allowFullScreen", ⟨.boolTy, true⟩),
   ("allow", ⟨.str, true⟩)]

/-- `interface AspectRatioProps extends BoxProps { ratio? }`. -/
def aspectBoxProps : Shape := extendI boxProps [("ratio", ⟨.num, true⟩)]

/-- `interface AspectImageProps extends ImageProps { ratio? }`. -/
def aspectImgProps : Shape := extendI imageProps [("ratio", ⟨.num, true⟩)]

/-- `type ContainerProps = BoxProps`. -/
def containerProps : Shape := boxProps

/-- `type NavLinkProps = LinkProps`. -/
def navLinkProps : Shape := linkProps

/-- `type MessageProps = BoxProps`. -/
def messageProps : Shape := boxProps

/-- `type MenuButtonProps = IconButtonProps`. -/
def menuButtonProps : Shape := iconButtonProps

/-- `interface SwitchProps extends Assign<React.ComponentProps<'input'>,
BoxOwnProps> { label? }`; `ComponentProps` (without ref) is the input
attribute set less `ref`. -/
def switchProps : Shape :=
  extendI (assignS (omitKeys inputAttrs ["ref"]) boxOwnProps)
    [("label", ⟨.str, true⟩)]

/-- `interface FieldOwnProps extends MarginProps { label: string;
name: string }`. -/
def fieldOwnProps : Shape :=
  [("label", ⟨.str, false⟩), ("name", ⟨.str, false⟩)] ++ marginProps

/-- `type FieldProps<T> = FieldOwnProps & Omit<React.ComponentPropsWithRef<
T>, 'as' | keyof FieldOwnProps> & { as?: T }`; the parameter is embedded as
the props shape `T` of the selected element/component together with the
`Ty` denotation `tt` of the component type itself (the type of `as`). -/
def fieldProps (T : Shape) (tt : Ty) : Shape :=
  interS (interS fieldOwnProps (omitKeys T ("as" :: keyList fieldOwnProps)))
    [("as", ⟨tt, true⟩)]

/-- The `Ty` denotation of the default `T` of `Field`:
`React.ComponentType<InputProps>`. -/
def inputComponentTy : Ty := .named "ComponentTypeInputProps"

/-- `React.ComponentPropsWithRef<T>` at `Field`'s default
`T = React.ComponentType<InputProps>`: the props of that component, i.e.
`InputProps`. -/
def defaultFieldProps : Shape := fieldProps inputProps inputComponentTy

/-! ## The component registry -/

/-- One exported component bound to a native host element: its name, host
tag, the native attribute set it composes over, the explicit exclusion list
applied to the native attributes before composing, and its declared props
shape. -/
structure Component where
  name : String
  host : String
  native : Shape
  exclusions : List String
  props : Shape
deriving DecidableEq

def boxC : Component := ⟨"Box", "div", divAttrs, [], boxProps⟩
def flexC : Component := ⟨"Flex", "div", divAttrs, [], flexProps⟩
def gridC : Component := ⟨"Grid", "div", divAttrs, [], gridProps⟩
def buttonC : Component := ⟨"Button", "button", buttonAttrs, [], buttonProps⟩
def linkC : Component := ⟨"Link", "a", anchorAttrs, [], linkProps⟩
def textC : Component := ⟨"Text", "div", divAttrs, [], textProps⟩
def paragraphC : Component := ⟨"Paragraph", "p", divAttrs, [], paragraphProps⟩
def headingC : Component := ⟨"Heading", "h2", divAttrs, [], headingProps⟩
def imageC : Component := ⟨"Image", "img", imgAttrs, [], imageProps⟩
def cardC : Component := ⟨"Card", "div", divAttrs, [], cardProps⟩
def labelC : Component := ⟨"Label", "label", labelAttrs, [], labelProps⟩
def inputC : Component := ⟨"Input", "input", inputAttrs, [], inputProps⟩
def selectC : Component := ⟨"Select", "select", selectAttrs, [], selectProps⟩
def textareaC : Component := ⟨"Textarea", "textarea", textareaAttrs, [], textareaProps⟩
def radioC : Component := ⟨"Radio", "input", inputAttrs, [], radioProps⟩
def checkboxC : Component := ⟨"Checkbox", "input", inputAttrs, [], checkboxProps⟩
def sliderC : Component := ⟨"Slider", "input", inputAttrs, [], sliderProps⟩
def progressC : Component := ⟨"Progress", "progress", progressAttrs, [], progressProps⟩
def donutC : Component := ⟨"Donut", "svg", svgAttrs, donutExclusions, donutProps⟩
def spinnerC : Component := ⟨"Spinner", "svg", svgAttrs, spinnerExclusions, spinnerProps⟩
def avatarC : Component := ⟨"Avatar", "img", imgAttrs, [], avatarProps⟩
def badgeC : Component := ⟨"Badge", "div", divAttrs, [], badgeProps⟩
def closeC : Component := ⟨"Close", "button", buttonAttrs, [], closeProps⟩
def alertC : Component := ⟨"Alert", "div", divAttrs, [], alertProps⟩
def dividerC : Component := ⟨"Divider", "div", divAttrs, [], dividerProps⟩
def embedC : Component := ⟨"Embed", "iframe", iframeAttrs, [], embedProps⟩
def aspectBoxC : Component := ⟨"AspectRatio", "div", divAttrs, [], aspectBoxProps⟩
def aspectImgC : Component := ⟨"AspectImage", "img", imgAttrs, [], aspectImgProps⟩
def containerC : Component := ⟨"Container", "div", divAttrs, [], containerProps⟩
def navLinkC : Component := ⟨"NavLink", "a", anchorAttrs, [], navLinkProps⟩
def messageC : Component := ⟨"Message", "div", divAttrs, [], messageProps⟩
def iconButtonC : Component := ⟨"IconButton", "button", buttonAttrs, [], iconButtonProps⟩
def menuButtonC : Component := ⟨"MenuButton", "button", buttonAttrs, [], menuButtonProps⟩
def switchC : Component := ⟨"Switch", "input", omitKeys inputAttrs ["ref"], [], switchProps⟩

/-- Every exported component bound to a native host element, in source
order (`Field` is a generic function component with no fixed host). -/
def registry : List Component := [
  boxC, flexC, gridC, buttonC, linkC, textC, paragraphC, headingC, imageC,
  cardC, labelC, inputC, selectC, textareaC, radioC, checkboxC, sliderC,
  progressC, donutC, spinnerC, avatarC, badgeC, closeC, alertC, dividerC,
  embedC, aspectBoxC, aspectImgC, containerC, navLinkC, messageC,
  iconButtonC, menuButtonC, switchC]

/-- Modelled from the spec: the default variant bucket of each component
whose documentation names one (the variant resolution itself happens in the
runtime packages, outside this declaration file). -/
def defaultVariantTable : List (String × String) := [
  ("Link", "theme.styles.a"),
  ("Paragraph", "theme.text.paragraph"),
  ("Heading", "theme.text.heading"),
  ("Card", "theme.cards.primary"),
  ("Label", "theme.forms.label"),
  ("Input", "theme.forms.input"),
  ("Select", "theme.forms.select"),
  ("Textarea", "theme.forms.textarea"),
  ("Radio", "theme.forms.radio"),
  ("Checkbox", "theme.forms.checkbox"),
  ("Slider", "theme.forms.slider"),
  ("Close", "theme.buttons.close"),
  ("Alert", "theme.alerts.primary"),
  ("Divider", "theme.styles.hr"),
  ("Container", "theme.layout.container"),
  ("NavLink", "theme.links.nav"),
  ("IconButton", "theme.buttons.icon"),
  ("MenuButton", "theme.buttons.menu"),
  ("Switch", "theme.forms.switch")]

/-! ## Boolean helpers -/

theorem band_true {x y : Bool} (h : (x && y) = true) : x = true ∧ y = true := by
  rcases x <;> rcases y <;> simp_all

theorem bor_true {x y : Bool} (h : (x || y) = true) : x = true ∨ y = true := by
  rcases x <;> rcases y <;> simp_all

theorem bor_inl {x y : Bool} (h : x = true) : (x || y) = true := by
  rw [h]
  rfl

theorem bor_inr {x y : Bool} (h : y = true) : (x || y) = true := by
  rw [h]
  rcases x <;> rfl

/-! ## Lookup lemmas -/

theorem look_cons {β : Type} (m : String) (b : β) (l : List (String × β)) (n : String) :
    look ((m, b) :: l) n = if n = m then some b else look l n := rfl

theorem look_isSome_iff {β : Type} (l : List (String × β)) (n : String) :
    (look l n).isSome = true ↔ n ∈ keyList l := by
  induction l with
  | nil => simp [look, keyList]
  | cons p t ih =>
      cases p with
      | mk m b =>
          by_cases h : n = m
          · subst h
            simp [look, keyList]
          · simp [look, keyList, h, ih]

theorem look_eq_none_iff {β : Type} (l : List (String × β)) (n : String) :
    look l n = none ↔ n ∉ keyList l := by
  rw [← look_isSome_iff]
  cases look l n <;> simp

theorem look_append_some {β : Type} {A : List (String × β)} (B : List (String × β))
    {n : String} {b : β} (h : look A n = some b) :
    look (A ++ B) n = some b := by
  induction A with
  | nil => exact absurd h (by simp [look])
  | cons p t ih =>
      cases p with
      | mk m c =>
          by_cases hnm : n = m
          · rw [List.cons_append, look_cons, if_pos hnm]
            rw [look_cons, if_pos hnm] at h
            exact h
          · rw [List.cons_append, look_cons, if_neg hnm]
            rw [look_cons, if_neg hnm] at h
            exact ih h

theorem look_append_none {β : Type} {A : List (String × β)} (B : List (String × β))
    {n : String} (h : look A n = none) :
    look (A ++ B) n = look B n := by
  induction A with
  | nil => rfl
  | cons p t ih =>
      cases p with
      | mk m c =>
          by_cases hnm : n = m
          · rw [look_cons, if_pos hnm] at h
            exact absurd h (by simp)
          · rw [List.cons_append, look_cons, if_neg hnm]
            rw [look_cons, if_neg hnm] at h
            exact ih h

theorem look_omit (S : Shape) (K : List String) (n : String) :
    look (omitKeys S K) n = if n ∈ K then none else look S n := by
  induction S with
  | nil => by_cases h : n ∈ K <;> simp [omitKeys, look, h]
  | cons p t ih =>
      cases p with
      | mk m f =>
          by_cases hm : m ∈ K
          · rw [show omitKeys ((m, f) :: t) K = omitKeys t K by simp [omitKeys, hm], ih]
            by_cases hn : n ∈ K
            · simp [hn]
            · have hnm : n ≠ m := fun he => hn (he ▸ hm)
              simp [hn, look_cons, hnm]
          · rw [show omitKeys ((m, f) :: t) K = (m, f) :: omitKeys t K by simp [omitKeys, hm]]
            by_cases hnm : n = m
            · subst hnm
              simp [look_cons, hm]
            · rw [look_cons, if_neg hnm, ih, look_cons, if_neg hnm]

theorem look_map_pair {β γ : Type} (G : String → β → γ) (l : List (String × β)) (n : String) :
    look (l.map fun p => (p.1, G p.1 p.2)) n = (look l n).map (G n) := by
  induction l with
  | nil => rfl
  | cons p t ih =>
      cases p with
      | mk m b =>
          by_cases h : n = m
          · subst h
            simp [look]
          · simp [look, h, ih]

theorem look_interS_some (S T : Shape) (n : String) (f : FieldInfo)
    (h : look S n = some f) :
    look (interS S T) n = some (interField T n f) := by
  unfold interS
  exact look_append_some _ (by rw [look_map_pair, h]; rfl)

theorem look_interS_none (S T : Shape) (n : String) (h : look S n = none) :
    look (interS S T) n = look T n := by
  unfold interS
  rw [look_append_none _ (by rw [look_map_pair, h]; rfl), look_omit,
    if_neg (fun hmem => ((look_eq_none_iff S n).mp h) hmem)]

theorem look_mapKeys (l : List String) (g : String → FieldInfo) (n : String) :
    look (l.map fun m => (m, g m)) n = if n ∈ l then some (g n) else none := by
  induction l with
  | nil => simp [look]
  | cons m t ih =>
      by_cases h : n = m
      · subst h
        simp [look]
      · simp [look, h, ih]

theorem look_assignS (T U : Shape) (n : String) :
    look (assignS T U) n =
      if n ∈ keyList T ∨ n ∈ keyList U then some (assignField T U n) else none := by
  unfold assignS
  rw [look_mapKeys]
  by_cases h : n ∈ keyList T ∨ n ∈ keyList U
  · rw [if_pos h, if_pos (by simpa [List.mem_dedup, List.mem_append, keyList] using h)]
  · rw [if_neg h, if_neg (by simpa [List.mem_dedup, List.mem_append, keyList] using h)]

/-! ## Typing lemmas -/

theorem hasTy_union (v : Value) (a b : Ty) :
    hasTy v (.union a b) = (hasTy v a || hasTy v b) := by
  cases v <;> rfl

theorem hasTy_never (v : Value) : hasTy v .never = false := by
  cases v <;> rfl

theorem tyInclAtom_sound : ∀ b a : Ty, tyInclAtom a b = true →
    ∀ v : Value, hasTy v a = true → hasTy v b = true := by
  intro b
  induction b with
  | union b1 b2 ih1 ih2 =>
      intro a h v hv
      rw [hasTy_union]
      have h' : (tyInclAtom a b1 || tyInclAtom a b2) = true := h
      rcases bor_true h' with h1 | h2
      · exact bor_inl (ih1 a h1 v hv)
      · exact bor_inr (ih2 a h2 v hv)
  | str =>
      intro a h v hv
      have ha : a = .str := of_decide_eq_true h
      exact ha ▸ hv
  | num =>
      intro a h v hv
      have ha : a = .num := of_decide_eq_true h
      exact ha ▸ hv
  | boolTy =>
      intro a h v hv
      have ha : a = .boolTy := of_decide_eq_true h
      exact ha ▸ hv
  | undef =>
      intro a h v hv
      have ha : a = .undef := of_decide_eq_true h
      exact ha ▸ hv
  | never =>
      intro a h v hv
      have ha : a = .never := of_decide_eq_true h
      exact ha ▸ hv
  | inter b1 b2 ih1 ih2 =>
      intro a h v hv
      have ha : a = .inter b1 b2 := of_decide_eq_true h
      exact ha ▸ hv
  | named s =>
      intro a h v hv
      have ha : a = .named s := of_decide_eq_true h
      exact ha ▸ hv

theorem tyIncl_sound : ∀ a b : Ty, tyIncl a b = true →
    ∀ v : Value, hasTy v a = true → hasTy v b = true := by
  intro a
  induction a with
  | never =>
      intro b h v hv
      rw [hasTy_never] at hv
      exact absurd hv (by simp)
  | union a1 a2 ih1 ih2 =>
      intro b h v hv
      have h' : (tyIncl a1 b && tyIncl a2 b) = true := h
      rw [hasTy_union] at hv
      rcases bor_true hv with hv1 | hv2
      · exact ih1 b (band_true h').1 v hv1
      · exact ih2 b (band_true h').2 v hv2
  | str => intro b h v hv; exact tyInclAtom_sound b _ h v hv
  | num => intro b h v hv; exact tyInclAtom_sound b _ h v hv
  | boolTy => intro b h v hv; exact tyInclAtom_sound b _ h v hv
  | undef => intro b h v hv; exact tyInclAtom_sound b _ h v hv
  | inter a1 a2 ih1 ih2 => intro b h v hv; exact tyInclAtom_sound b _ h v hv
  | named s => intro b h v hv; exact tyInclAtom_sound b _ h v hv

/-- Soundness of record-type assignability: a value of the record type `S`
typechecks against any record type `T` with `subShape S T = true`. -/
theorem sat_mono (S T : Shape) (v : Val)
    (hsub : subShape S T = true) (hv : Sat v S = true) :
    SatFields v T = true := by
  have hvf : SatFields v S = true := (band_true hv).1
  have hvd : keysSub v S = true := (band_true hv).2
  unfold SatFields
  rw [List.all_eq_true]
  intro n hn
  unfold subShape at hsub
  rw [List.all_eq_true] at hsub
  have hs := hsub n hn
  unfold SatFields at hvf
  rw [List.all_eq_true] at hvf
  unfold keysSub at hvd
  rw [List.all_eq_true] at hvd
  cases hT : look T n with
  | none => simp [hT]
  | some f =>
      cases hS : look S n with
      | some g =>
          rw [hT, hS] at hs
          have hs' : ((!g.optional || f.optional) && tyIncl g.ty f.ty) = true := hs
          cases hw : look v n with
          | some w =>
              have hnS : n ∈ keyList S := (look_isSome_iff S n).mp (by rw [hS]; rfl)
              have hgw := hvf n hnS
              rw [hS, hw] at hgw
              have hgw' : hasTy w g.ty = true := hgw
              have hfw := tyIncl_sound g.ty f.ty (band_true hs').2 w hgw'
              simp [hT, hw, hfw]
          | none =>
              have hnS : n ∈ keyList S := (look_isSome_iff S n).mp (by rw [hS]; rfl)
              have hgopt := hvf n hnS
              rw [hS, hw] at hgopt
              have hgopt' : g.optional = true := hgopt
              have h1 := (band_true hs').1
              rw [hgopt'] at h1
              simp at h1
              simp [hT, hw, h1]
      | none =>
          cases hw : look v n with
          | some w =>
              have hnv : n ∈ keyList v := (look_isSome_iff v n).mp (by rw [hw]; rfl)
              have hvS := hvd n hnv
              rw [hS] at hvS
              exact absurd hvS (by simp)
          | none =>
              rw [hT, hS] at hs
              have hs' : f.optional = true := hs
              simp [hT, hw, hs']

theorem look_mem {β : Type} {l : List (String × β)} {n : String} {b : β}
    (h : look l n = some b) : (n, b) ∈ l := by
  induction l with
  | nil => simp [look] at h
  | cons p t ih =>
      cases p with
      | mk m c =>
          rw [look_cons] at h
          by_cases hnm : n = m
          · rw [if_pos hnm] at h
            injection h with h
            subst hnm
            subst h
            exact List.mem_cons_self _ _
          · rw [if_neg hnm] at h
            exact List.mem_cons_of_mem _ (ih h)

/-- A decidable sufficient condition for a shape declaring no `never`
member. -/
theorem allNotNever_sound {S : Shape}
    (h : S.all (fun p => decide (p.2.ty ≠ .never)) = true) :
    ∀ m k, look S m = some k → k.ty ≠ .never := by
  intro m k hk
  rw [List.all_eq_true] at h
  exact of_decide_eq_true (h (m, k) (look_mem hk))

/-! ## Claim C1: the Assign composition algebra -/

/-- Small concrete shapes used by the witnesses: a native attribute set and
an own-props set sharing the name `color`. -/
def tShape : Shape := [("onClick", ⟨.named "MouseEventHandler", true⟩), ("color", ⟨.str, true⟩)]

def uShape : Shape := [("color", ⟨responsive (.union .str .num), true⟩), ("variant", ⟨.str, true⟩)]

/-- C1: for every pair of prop shapes `T` (native props) and `U` (own
props), `Assign<T, U>` contains every field name of `T` and every field
name of `U`; at any name `T` declares (in particular any name in both) the
merged field has `T`'s type, and at a name only `U` declares it has `U`'s
type. -/
theorem assign_merges_native_and_own (T U : Shape) (n : String) :
    ((look T n).isSome = true → (look (assignS T U) n).isSome = true) ∧
    ((look U n).isSome = true → (look (assignS T U) n).isSome = true) ∧
    (∀ f : FieldInfo, look T n = some f →
      (look (assignS T U) n).map FieldInfo.ty = some f.ty) ∧
    (look T n = none → ∀ g : FieldInfo, look U n = some g →
      (look (assignS T U) n).map FieldInfo.ty = some g.ty) := by
  refine ⟨?_, ?_, ?_, ?_⟩
  · intro h
    rw [look_assignS, if_pos (Or.inl ((look_isSome_iff T n).mp h))]
    rfl
  · intro h
    rw [look_assignS, if_pos (Or.inr ((look_isSome_iff U n).mp h))]
    rfl
  · intro f hf
    rw [look_assignS,
      if_pos (Or.inl ((look_isSome_iff T n).mp (by rw [hf]; rfl)))]
    simp [assignField, hf]
  · intro hT g hg
    rw [look_assignS,
      if_pos (Or.inr ((look_isSome_iff U n).mp (by rw [hg]; rfl)))]
    simp [assignField, hT, hg]

/-- Witness for C1 at concrete shapes: `color` is in both (native type
wins), `variant` only in the own props (own type used). -/
theorem assign_merges_native_and_own_witness :
    (look (assignS tShape uShape) "color").map FieldInfo.ty = some Ty.str ∧
    (look (assignS tShape uShape) "variant").isSome = true ∧
    (look (assignS tShape uShape) "variant").map FieldInfo.ty = some Ty.str := by
  refine ⟨?_, ?_, ?_⟩
  · exact (assign_merges_native_and_own tShape uShape "color").2.2.1
      ⟨.str, true⟩ (by decide)
  · exact (assign_merges_native_and_own tShape uShape "variant").2.1 (by decide)
  · exact (assign_merges_native_and_own tShape uShape "variant").2.2.2
      (by decide) ⟨.str, true⟩ (by decide)

/-! ## Claim C8: the never fallback of Assign is unreachable -/

/-- C8: every field name of `Assign<T, U>` is a field name of `T` or of
`U`, the merged member's type is the corresponding declared type (so the
`never` fallback branch of the conditional is unreachable), and hence no
merged field has type `never` unless `T` or `U` declared `never` itself. -/
theorem assign_never_fallback_unreachable (T U : Shape) (n : String) (f : FieldInfo)
    (h : look (assignS T U) n = some f) :
    (n ∈ keyList T ∨ n ∈ keyList U) ∧
    ((∃ g, look T n = some g ∧ f.ty = g.ty) ∨
      (look T n = none ∧ ∃ g, look U n = some g ∧ f.ty = g.ty)) ∧
    ((∀ m k, look T m = some k → k.ty ≠ .never) →
      (∀ m k, look U m = some k → k.ty ≠ .never) → f.ty ≠ .never) := by
  rw [look_assignS] at h
  by_cases hmem : n ∈ keyList T ∨ n ∈ keyList U
  · rw [if_pos hmem] at h
    have hf : f = assignField T U n := by injection h with h; exact h.symm
    have hdisj : (∃ g, look T n = some g ∧ f.ty = g.ty) ∨
        (look T n = none ∧ ∃ g, look U n = some g ∧ f.ty = g.ty) := by
      cases hT : look T n with
      | some g =>
          left
          exact ⟨g, rfl, by rw [hf]; simp [assignField, hT]⟩
      | none =>
          cases hU : look U n with
          | some g =>
              right
              exact ⟨rfl, g, rfl, by rw [hf]; simp [assignField, hT, hU]⟩
          | none =>
              exact absurd hmem (by
                rw [← look_isSome_iff, ← look_isSome_iff, hT, hU]
                simp)
    refine ⟨hmem, hdisj, ?_⟩
    intro hTnever hUnever
    rcases hdisj with ⟨g, hg, he⟩ | ⟨_, g, hg, he⟩
    · exact he ▸ hTnever n g hg
    · exact he ▸ hUnever n g hg
  · rw [if_neg hmem] at h
    exact absurd h (by simp)

/-- Witness for C8 at concrete shapes. -/
theorem assign_never_fallback_unreachable_witness :
    ("variant" ∈ keyList tShape ∨ "variant" ∈ keyList uShape) ∧
    (FieldInfo.mk Ty.str true).ty ≠ Ty.never := by
  have h := assign_never_fallback_unreachable tShape uShape "variant"
    ⟨.str, true⟩ (by decide)
  exact ⟨h.1, h.2.2 (allNotNever_sound (by decide)) (allNotNever_sound (by decide))⟩

/-! ## Claim C9: aliased prop shapes -/

/-- C9: the aliased prop shapes are definitionally equal to their base
shapes: FlexProps, TextProps, CardProps, BadgeProps, AlertProps,
DividerProps, ContainerProps and MessageProps are BoxProps, NavLinkProps is
LinkProps, and MenuButtonProps is IconButtonProps. -/
theorem alias_props_eq_base :
    flexProps = boxProps ∧ textProps = boxProps ∧ cardProps = boxProps ∧
    badgeProps = boxProps ∧ alertProps = boxProps ∧ dividerProps = boxProps ∧
    containerProps = boxProps ∧ messageProps = boxProps ∧
    navLinkProps = linkProps ∧ menuButtonProps = iconButtonProps :=
  ⟨rfl, rfl, rfl, rfl, rfl, rfl, rfl, rfl, rfl, rfl⟩

/-! ## Claim C10: CloseProps -/

/-- C10: CloseProps is exactly IconButtonProps with `children` removed:
`children` is not an accepted prop of Close, the optional `size` member is
kept unchanged, and every member other than `children` agrees with
IconButtonProps. -/
theorem close_props_omit_children :
    look closeProps "children" = none ∧
    look iconButtonProps "children" = some ⟨.named "ReactNode", true⟩ ∧
    look closeProps "size" = some ⟨.union .num .str, true⟩ ∧
    ∀ n : String, n ≠ "children" → look closeProps n = look iconButtonProps n := by
  have hfirst : look closeProps "children" = none ∧
      look iconButtonProps "children" = some ⟨.named "ReactNode", true⟩ ∧
      look closeProps "size" = some ⟨.union .num .str, true⟩ := by decide
  refine ⟨hfirst.1, hfirst.2.1, hfirst.2.2, ?_⟩
  intro n hn
  unfold closeProps
  rw [look_omit]
  simp [hn]

/-- Witness for C10 at the `size` member. -/
theorem close_props_omit_children_witness :
    look closeProps "size" = look iconButtonProps "size" :=
  close_props_omit_children.2.2.2 "size" (by decide)

/-! ## Claim C2: the native-wins invariant over the registry -/

/-- Decidable registry-wide check: every component except Donut is
assignable-to from its native attribute set. -/
def registryOk : Bool :=
  registry.all fun c => (c.name == "Donut") || subShape c.native c.props

theorem registryOk_true : registryOk = true := by decide

/-- C2 (amended): for every registry component other than Donut, every
value of the declared native host element's full attribute set typechecks
against the component's declared props shape. -/
theorem native_value_typechecks_as_props (c : Component) (hc : c ∈ registry)
    (hname : c.name ≠ "Donut") (v : Val) (hv : Sat v c.native = true) :
    SatFields v c.props = true := by
  have hall := registryOk_true
  unfold registryOk at hall
  rw [List.all_eq_true] at hall
  rcases bor_true (hall c hc) with h1 | h2
  · exact absurd (eq_of_beq h1) hname
  · exact sat_mono c.native c.props v h2 hv

/-- C2 counterexample: the empty value is a value of Donut's native SVG
attribute set (every native attribute is optional) but does not typecheck
against DonutProps, whose `value` member is required — so the native-wins
invariant does not hold for every component in the registry. -/
theorem native_value_fails_for_donut :
    donutC ∈ registry ∧ Sat [] donutC.native = true ∧
    SatFields [] donutC.props = false := by
  decide

/-- Witness for C2 at the Box component and a concrete native value. -/
theorem native_value_typechecks_as_props_witness :
    SatFields [("id", Value.vstr "x"), ("children", Value.vnamed "ReactNode")]
      boxC.props = true :=
  native_value_typechecks_as_props boxC (by decide) (by decide) _ (by decide)

/-! ## Claim C3: the explicit exclusion lists -/

/-- C3: the registry components with a nonempty exclusion list are exactly
Donut and Spinner.  Donut composes over the native SVG attributes with
`opacity`, `color`, `min` and `max` removed (the extra `css`/`sx` keys of
its literal exclusion list do not occur among the SVG attributes, so the
removals coincide), then adds a required numeric `value` and optional
numeric `min`/`max`; Spinner's removals coincide with `opacity`/`color`
(its `min`/`max` keep the native member).  At every removed name the
composed member differs from the native member, and a native string `min`
is no longer accepted by Donut. -/
theorem exclusion_lists_exact :
    (registry.filter fun c => !c.exclusions.isEmpty).map Component.name
        = ["Donut", "Spinner"] ∧
    donutC.exclusions = ["opacity", "color", "css", "sx", "max", "min"] ∧
    spinnerC.exclusions = ["opacity", "color", "css", "sx"] ∧
    omitKeys svgAttrs donutExclusions
        = omitKeys svgAttrs ["opacity", "color", "min", "max"] ∧
    omitKeys svgAttrs spinnerExclusions = omitKeys svgAttrs ["opacity", "color"] ∧
    look donutProps "value" = some ⟨.num, false⟩ ∧
    look donutProps "min" = some ⟨.num, true⟩ ∧
    look donutProps "max" = some ⟨.num, true⟩ ∧
    look donutProps "opacity" ≠ look svgAttrs "opacity" ∧
    look donutProps "color" ≠ look svgAttrs "color" ∧
    look donutProps "min" ≠ look svgAttrs "min" ∧
    look donutProps "max" ≠ look svgAttrs "max" ∧
    look spinnerProps "opacity" ≠ look svgAttrs "opacity" ∧
    look spinnerProps "color" ≠ look svgAttrs "color" ∧
    look spinnerProps "min" = look svgAttrs "min" ∧
    hasTy (.vstr "40") (.union .num .str) = true ∧
    hasTy (.vstr "40") .num = false := by
  decide

/-! ## Claim C6: the default variant bucket table -/

/-- C6: the component-to-default-variant-bucket mapping is a function on
the listed component names — the names are pairwise distinct so each maps
to exactly one bucket, lookup succeeds for every listed name, Container
maps to `theme.layout.container` and Alert to `theme.alerts.primary`, and
every listed name is a registry component. -/
theorem default_variant_table_total :
    (keyList defaultVariantTable).Nodup ∧
    look defaultVariantTable "Container" = some "theme.layout.container" ∧
    look defaultVariantTable "Alert" = some "theme.alerts.primary" ∧
    (defaultVariantTable.all fun p => (look defaultVariantTable p.1).isSome) = true ∧
    (defaultVariantTable.all fun p => registry.any fun c => c.name == p.1) = true := by
  decide

/-! ## Claim C7: optionality of the own-props shapes -/

/-- C7 counterexample: FieldOwnProps is an own-props shape whose `label`
member is required, so a value supplying none of the own-props fields does
not satisfy it. -/
theorem own_props_not_all_optional :
    look fieldOwnProps "label" = some ⟨.str, false⟩ ∧
    SatFields [] fieldOwnProps = false := by
  decide

/-- C7 (amended): every member of BoxOwnProps is optional and the empty
value satisfies BoxOwnProps, while FieldOwnProps requires exactly its
`label` and `name` members — every member of FieldOwnProps other than
`label` and `name` is optional. -/
theorem own_props_optionality :
    (boxOwnProps.all fun p => p.2.optional) = true ∧
    SatFields [] boxOwnProps = true ∧
    look fieldOwnProps "label" = some ⟨.str, false⟩ ∧
    look fieldOwnProps "name" = some ⟨.str, false⟩ ∧
    ∀ n f, look fieldOwnProps n = some f → n ≠ "label" → n ≠ "name" →
      f.optional = true := by
  have hfirst : (boxOwnProps.all fun p => p.2.optional) = true ∧
      SatFields [] boxOwnProps = true ∧
      look fieldOwnProps "label" = some ⟨.str, false⟩ ∧
      look fieldOwnProps "name" = some ⟨.str, false⟩ := by decide
  refine ⟨hfirst.1, hfirst.2.1, hfirst.2.2.1, hfirst.2.2.2, ?_⟩
  intro n f hf h1 h2
  have hfil : (n, f) ∈ fieldOwnProps.filter
      fun p => decide (p.1 ≠ "label" ∧ p.1 ≠ "name") :=
    List.mem_filter.mpr ⟨look_mem hf, decide_eq_true ⟨h1, h2⟩⟩
  have hall : ((fieldOwnProps.filter
      fun p => decide (p.1 ≠ "label" ∧ p.1 ≠ "name")).all
      fun p => p.2.optional) = true := by decide
  rw [List.all_eq_true] at hall
  exact hall (n, f) hfil

/-- Witness for C7 (amended) at the `mt` margin member. -/
theorem own_props_optionality_witness :
    (FieldInfo.mk (responsive (.union .num .str)) true).optional = true :=
  own_props_optionality.2.2.2.2 "mt" ⟨responsive (.union .num .str), true⟩
    (by decide) (by decide) (by decide)

/-! ## Claims C4 and C5: Field's polymorphic props -/

theorem interField_none (T : Shape) (m : String) (f : FieldInfo)
    (h : look T m = none) : interField T m f = f := by
  unfold interField
  rw [h]

/-- Two shapes with the same lookup at every name in either key list agree
at every name. -/
theorem shapeEq_of_check (S T : Shape)
    (h : ((keyList S ++ keyList T).all fun n => decide (look S n = look T n)) = true) :
    ∀ n, look S n = look T n := by
  intro n
  by_cases hm : n ∈ keyList S ++ keyList T
  · rw [List.all_eq_true] at h
    exact of_decide_eq_true (h n hm)
  · rw [List.mem_append] at hm
    push_neg at hm
    rw [(look_eq_none_iff S n).mpr hm.1, (look_eq_none_iff T n).mpr hm.2]

theorem look_fieldOwn_margin (n : String) (h1 : n ≠ "label") (h2 : n ≠ "name") :
    look fieldOwnProps n = look marginProps n := by
  unfold fieldOwnProps
  exact look_append_none marginProps
    (by rw [look_cons, if_neg h1, look_cons, if_neg h2]; rfl)

theorem mem_keys_fieldOwn_of_margin {n : String} (h : n ∈ keyList marginProps) :
    n ∈ keyList fieldOwnProps := by
  unfold fieldOwnProps keyList
  rw [List.map_append, List.mem_append]
  right
  exact h

/-- Field's props, member by member: required string `label` and `name`,
the styled-system margin members, an optional `as` of the component type,
and every other prop taken unchanged from the selected component. -/
theorem look_fieldProps_char (T : Shape) (tt : Ty) (n : String) :
    look (fieldProps T tt) n =
      if n = "label" then some ⟨.str, false⟩
      else if n = "name" then some ⟨.str, false⟩
      else if n ∈ keyList marginProps then look marginProps n
      else if n = "as" then some ⟨tt, true⟩
      else look T n := by
  have hasn : ∀ m : String, m ≠ "as" →
      look [("as", (⟨tt, true⟩ : FieldInfo))] m = none := by
    intro m hm
    rw [look_cons, if_neg hm]
    rfl
  unfold fieldProps
  by_cases h1 : n = "label"
  · subst h1
    rw [if_pos rfl]
    have hown : look fieldOwnProps "label" = some ⟨.str, false⟩ := by decide
    have homit : look (omitKeys T ("as" :: keyList fieldOwnProps)) "label" = none := by
      rw [look_omit, if_pos (by decide)]
    have hinner := look_interS_some fieldOwnProps
      (omitKeys T ("as" :: keyList fieldOwnProps)) "label" _ hown
    rw [interField_none _ _ _ homit] at hinner
    have houter := look_interS_some _ [("as", ⟨tt, true⟩)] "label" _ hinner
    rw [interField_none _ _ _ (hasn "label" (by decide))] at houter
    exact houter
  rw [if_neg h1]
  by_cases h2 : n = "name"
  · subst h2
    rw [if_pos rfl]
    have hown : look fieldOwnProps "name" = some ⟨.str, false⟩ := by decide
    have homit : look (omitKeys T ("as" :: keyList fieldOwnProps)) "name" = none := by
      rw [look_omit, if_pos (by decide)]
    have hinner := look_interS_some fieldOwnProps
      (omitKeys T ("as" :: keyList fieldOwnProps)) "name" _ hown
    rw [interField_none _ _ _ homit] at hinner
    have houter := look_interS_some _ [("as", ⟨tt, true⟩)] "name" _ hinner
    rw [interField_none _ _ _ (hasn "name" (by decide))] at houter
    exact houter
  rw [if_neg h2]
  by_cases h3 : n ∈ keyList marginProps
  · rw [if_pos h3]
    obtain ⟨f, hf⟩ := Option.isSome_iff_exists.mp ((look_isSome_iff marginProps n).mpr h3)
    have hown : look fieldOwnProps n = some f := by
      rw [look_fieldOwn_margin n h1 h2]
      exact hf
    have homit : look (omitKeys T ("as" :: keyList fieldOwnProps)) n = none := by
      rw [look_omit, if_pos (List.mem_cons_of_mem _ (mem_keys_fieldOwn_of_margin h3))]
    have hinner := look_interS_some fieldOwnProps
      (omitKeys T ("as" :: keyList fieldOwnProps)) n _ hown
    rw [interField_none _ _ _ homit] at hinner
    have houter := look_interS_some _ [("as", ⟨tt, true⟩)] n _ hinner
    have hnas : n ≠ "as" := by
      intro he
      subst he
      exact absurd h3 (by decide)
    rw [interField_none _ _ _ (hasn n hnas)] at houter
    rw [houter, hf]
  rw [if_neg h3]
  by_cases h4 : n = "as"
  · subst h4
    rw [if_pos rfl]
    have hown : look fieldOwnProps "as" = none := by decide
    have homit : look (omitKeys T ("as" :: keyList fieldOwnProps)) "as" = none := by
      rw [look_omit, if_pos (List.mem_cons_self _ _)]
    have hinner := look_interS_none fieldOwnProps
      (omitKeys T ("as" :: keyList fieldOwnProps)) "as" hown
    rw [homit] at hinner
    have houter := look_interS_none _ [("as", ⟨tt, true⟩)] "as" hinner
    rw [houter]
    rfl
  · rw [if_neg h4]
    have hown : look fieldOwnProps n = none := by
      rw [look_fieldOwn_margin n h1 h2]
      exact (look_eq_none_iff _ _).mpr h3
    have homit : look (omitKeys T ("as" :: keyList fieldOwnProps)) n = look T n := by
      rw [look_omit, if_neg]
      intro hmem
      rcases List.mem_cons.mp hmem with h | hmem2
      · exact h4 h
      · have hsplit : n = "label" ∨ n = "name" ∨ n ∈ keyList marginProps := by
          simpa [fieldOwnProps, keyList] using hmem2
        rcases hsplit with h | h | h
        · exact h1 h
        · exact h2 h
        · exact h3 h
    have hinner := look_interS_none fieldOwnProps
      (omitKeys T ("as" :: keyList fieldOwnProps)) n hown
    rw [homit] at hinner
    cases hT : look T n with
    | some f =>
        rw [hT] at hinner
        have houter := look_interS_some _ [("as", ⟨tt, true⟩)] n _ hinner
        rw [interField_none _ _ _ (hasn n h4)] at houter
        rw [houter]
    | none =>
        rw [hT] at hinner
        have houter := look_interS_none _ [("as", ⟨tt, true⟩)] n hinner
        rw [houter, hasn n h4]

/-- The shape claims C4 and C5 describe FieldProps to be, written from the
spec's words: required string `label` and `name`, plus every prop of `T`
except `as`, `label` and `name`, plus an optional `as` of type `T`. -/
def specFieldShape (T : Shape) (tt : Ty) : Shape :=
  interS (interS [("label", ⟨.str, false⟩), ("name", ⟨.str, false⟩)]
    (omitKeys T ["as", "label", "name"])) [("as", ⟨tt, true⟩)]

def t0Shape : Shape := [("foo", ⟨.str, true⟩)]

def t0Ty : Ty := .named "T0"

/-- C4 counterexample: for a component type with the single prop `foo`,
FieldProps<T> also contains the styled-system margin member `mt`, which the
claimed shape lacks — FieldProps is not exactly {label, name} plus T's
props minus as/label/name plus the optional as. -/
theorem field_props_not_exact :
    look (fieldProps t0Shape t0Ty) "mt" = some ⟨responsive (.union .num .str), true⟩ ∧
    look (specFieldShape t0Shape t0Ty) "mt" = none := by
  decide

/-- C4 (amended): the props accepted by Field<T> are exactly required
string `label` and `name`, the optional styled-system margin members (with
the library's margin types), an optional `as` of type `T`, and every prop
of `T` except `as`, `label`, `name` and the margin names, each with `T`'s
type for it. -/
theorem field_props_exact_members (T : Shape) (tt : Ty) (n : String) :
    look (fieldProps T tt) n =
      if n = "label" then some ⟨.str, false⟩
      else if n = "name" then some ⟨.str, false⟩
      else if n ∈ keyList marginProps then look marginProps n
      else if n = "as" then some ⟨tt, true⟩
      else look T n :=
  look_fieldProps_char T tt n

def customShape : Shape := [("mt", ⟨.boolTy, true⟩)]

def customTy : Ty := .named "CustomComponent"

def customVal : Val :=
  [("label", .vstr "age"), ("name", .vstr "age"), ("mt", .vbool true)]

/-- C5 counterexample: for a custom component whose own `mt` prop is a
boolean, a value of the shape the claim describes (CustomComponent's props
minus label/name/as, plus {label, name}) is not accepted by
Field<CustomComponent>: FieldProps drops the margin-named prop of the
custom component and uses the styled-system margin member instead. -/
theorem field_as_custom_not_exact :
    Sat customVal (specFieldShape customShape customTy) = true ∧
    SatFields customVal (fieldProps customShape customTy) = false := by
  decide

/-- The shape the amended C5 describes for `as={CustomComponent}`:
{label, name} plus the optional margin members plus CustomComponent's props
minus as/label/name and the margin names, plus an optional as. -/
def amendedFieldShape (T : Shape) (tt : Ty) : Shape :=
  ("label", ⟨.str, false⟩) :: ("name", ⟨.str, false⟩) ::
    (marginProps ++ omitKeys T ("as" :: "label" :: "name" :: keyList marginProps)
      ++ [("as", ⟨tt, true⟩)])

theorem look_amendedFieldShape_char (T : Shape) (tt : Ty) (n : String) :
    look (amendedFieldShape T tt) n =
      if n = "label" then some ⟨.str, false⟩
      else if n = "name" then some ⟨.str, false⟩
      else if n ∈ keyList marginProps then look marginProps n
      else if n = "as" then some ⟨tt, true⟩
      else look T n := by
  unfold amendedFieldShape
  by_cases h1 : n = "label"
  · subst h1
    rw [if_pos rfl, look_cons, if_pos rfl]
  rw [if_neg h1, look_cons, if_neg h1]
  by_cases h2 : n = "name"
  · subst h2
    rw [if_pos rfl, look_cons, if_pos rfl]
  rw [if_neg h2, look_cons, if_neg h2]
  by_cases h3 : n ∈ keyList marginProps
  · rw [if_pos h3]
    obtain ⟨f, hf⟩ := Option.isSome_iff_exists.mp ((look_isSome_iff marginProps n).mpr h3)
    rw [look_append_some _ (look_append_some _ hf), hf]
  rw [if_neg h3]
  have hmarg : look marginProps n = none := (look_eq_none_iff _ _).mpr h3
  by_cases h4 : n = "as"
  · subst h4
    rw [if_pos rfl]
    have homit : look (omitKeys T ("as" :: "label" :: "name" :: keyList marginProps))
        "as" = none := by
      rw [look_omit, if_pos (List.mem_cons_self _ _)]
    rw [look_append_none _ (by rw [look_append_none _ hmarg]; exact homit)]
    rfl
  · rw [if_neg h4]
    have homit : look (omitKeys T ("as" :: "label" :: "name" :: keyList marginProps)) n
        = look T n := by
      rw [look_omit, if_neg]
      intro hmem
      rcases List.mem_cons.mp hmem with h | hmem2
      · exact h4 h
      rcases List.mem_cons.mp hmem2 with h | hmem3
      · exact h1 h
      rcases List.mem_cons.mp hmem3 with h | hmem4
      · exact h2 h
      · exact h3 hmem4
    cases hT : look T n with
    | some f =>
        rw [look_append_some _ (by rw [look_append_none _ hmarg, homit, hT])]
    | none =>
        rw [look_append_none _ (by rw [look_append_none _ hmarg, homit, hT]),
          look_cons, if_neg h4]
        rfl

/-- C5 (amended): with no type argument Field defaults to the library's
input component and then accepts exactly {label, name} plus InputProps
minus as/label/name plus the optional as (the margin members coincide with
InputProps' own); with `as={CustomComponent}` Field accepts {label, name},
the optional margin members, an optional as, and CustomComponent's props
minus as, label, name and the margin names. -/
theorem field_default_and_custom :
    (∀ n, look defaultFieldProps n
      = look (specFieldShape inputProps inputComponentTy) n) ∧
    (∀ (T : Shape) (tt : Ty) (n : String),
      look (fieldProps T tt) n = look (amendedFieldShape T tt) n) := by
  constructor
  · exact shapeEq_of_check _ _ (by decide)
  · intro T tt n
    rw [look_fieldProps_char, look_amendedFieldShape_char]

end ThemeUI
